import Mathlib

/-!
Verification of the USBFREEDOM device-provisioning pipeline.

Shallow embedding of `src/usbfreedom/partition.py`, `src/usbfreedom/persistence.py`
and `src/usbfreedom/core.py`. Python integers are unbounded, so they are modelled
by `Int`/`Nat`; external side effects (subprocess invocations, the mounted
filesystem) are modelled by explicit environments, command traces and a
top-level-entry list standing for the partition's filesystem content.
-/

namespace USBFreedom

/-! ## Partition scheme (partition.py, `PartitionScheme`) -/

/-- `PartitionScheme` dataclass: boot partition size in MB and persistence
partition size in MB, where `-1` is the "use remaining space" sentinel. -/
structure PartitionScheme where
  boot_size_mb : Int
  persistence_size_mb : Int
deriving DecidableEq

/-- `PartitionScheme.calculate_sizes` (partition.py lines 37-47):
`boot_bytes = boot_size_mb * 1024 * 1024`; if `persistence_size_mb == -1` then
`persistence_bytes = total_size_bytes - boot_bytes - 100*1024*1024`, else
`persistence_bytes = persistence_size_mb * 1024 * 1024`. -/
def PartitionScheme.calculate_sizes (s : PartitionScheme) (total_size_bytes : Int) :
    Int × Int :=
  let boot_bytes := s.boot_size_mb * 1024 * 1024
  if s.persistence_size_mb = -1 then
    (boot_bytes, total_size_bytes - boot_bytes - 100 * 1024 * 1024)
  else
    (boot_bytes, s.persistence_size_mb * 1024 * 1024)

/-! ## Boot size computation of the persistence-flash orchestrator
(core.py line 272): `boot_size_mb = int((image_size / (1024**2)) * 1.2) + 100`.
Python's `int()` truncates toward zero; the operand is nonnegative, so this is
the floor. The float literal `1.2` is modelled as the exact rational `6/5`
(exact arithmetic; the float and rational computations agree on the concrete
inputs considered in the theorems below). -/

/-- Boot partition size in MB chosen by `Flasher._flash_with_persistence`
for an image of `image_size` bytes. -/
def flashBootSizeMb (image_size : Nat) : Int :=
  ⌊((image_size : ℚ) / (1024 * 1024)) * (6 / 5)⌋ + 100

/-! ## Partition path naming (partition.py, `PartitionManager._get_partition_path`) -/

/-- Python's substring containment `sub in s`. -/
def strContainsSub (s sub : String) : Bool := decide (sub.data <:+: s.data)

/-- `PartitionManager._get_partition_path` (partition.py lines 208-214):
paths containing `nvme` or `mmcblk` get a `p` before the partition number,
all others get the bare number appended. -/
def get_partition_path (device_path : String) (partition_num : Nat) : String :=
  if strContainsSub device_path "nvme" || strContainsSub device_path "mmcblk" then
    device_path ++ "p" ++ toString partition_num
  else
    device_path ++ toString partition_num

/-! ## Persistence builder (persistence.py, `PersistenceBuilder`)

The partition's filesystem content is modelled as the list of paths (relative
to the mount point) that exist on it; `mkdir(parents=True, exist_ok=True)`
inserts a path and all its ancestors. External failures (mount, a mkdir, the
conf write, sync) are modelled by an environment record; the sequence of
mount/umount side effects is recorded as an action trace. -/

/-- Filesystem content of the persistence partition: the set of existing
paths, relative to the mount point. -/
abbrev FS := List String

/-- The fixed directory skeleton created by `setup_persistence_structure`
(persistence.py lines 53-60). -/
def setupDirectories : List String := ["upper", "work", "home", "root", "etc", "var/log"]

/-- The exact lines written to `persistence.conf`
(persistence.py lines 72-79); `\n\n` after the second comment produces a
blank line. -/
def persistenceConfLines : List String :=
  ["# Persistence configuration for USBFREEDOM",
   "# Each line specifies a directory to persist",
   "",
   "/home union",
   "/var/log union",
   "/etc union",
   "/root union",
   "/usr/local union"]

/-- Split a character list on a separator character (the components of a
relative path when applied with `'/'`). -/
def splitOnChar (sep : Char) : List Char → List (List Char)
  | [] => [[]]
  | c :: cs =>
      let r := splitOnChar sep cs
      if c = sep then [] :: r
      else
        match r with
        | [] => [[c]]
        | h :: t => (c :: h) :: t

/-- All ancestor paths of a relative path, shortest first, the path itself
last: `pathAncestors "var/log" = ["var", "var/log"]`. -/
def pathAncestors (d : String) : List String :=
  (((splitOnChar '/' d.data).foldl
      (fun (acc : List (List Char)) c =>
        match acc with
        | [] => [c]
        | p :: _ => (p ++ '/' :: c) :: acc)
      []).reverse).map fun cs => String.mk cs

/-- Insert a path into the filesystem if not already present. -/
def fsInsert (fs : FS) (e : String) : FS :=
  if fs.contains e then fs else fs ++ [e]

/-- `Path.mkdir(parents=True, exist_ok=True)`: create the path and all its
ancestors. -/
def mkdirParents (fs : FS) (d : String) : FS :=
  (pathAncestors d).foldl fsInsert fs

/-- Environment of one `setup_persistence_structure` run: which of the
fallible external steps succeed. `mkdirFailAfter = some k` means an OS error
is raised while creating directory number `k` (0-based) of
`setupDirectories`; `none` means all directory creations succeed. -/
structure SetupEnv where
  mountOk : Bool
  mkdirFailAfter : Option Nat
  writeOk : Bool
  syncOk : Bool

/-- Observable side effects of the builder, in order. -/
inductive FsAction
  | mount
  | mkdir (d : String)
  | writeConf
  | syncFs
  | umount
deriving DecidableEq

/-- Result of one `setup_persistence_structure` run: the returned boolean,
the partition's filesystem content afterwards, the complete manifest if it
was fully written, and the trace of side effects. -/
structure SetupResult where
  ok : Bool
  fs : FS
  conf : Option (List String)
  actions : List FsAction

/-- `PersistenceBuilder.setup_persistence_structure` (persistence.py lines
39-96): mount; create the directory skeleton; write `persistence.conf`;
sync; return `True`. Every raised error is caught by the `except` block and
turned into a `False` return, and the `finally` block unmounts on every exit
path. A failing write still leaves the conf file created (Python's
`open(..., 'w')` creates it before any write), and a failing sync happens
after a complete write. -/
def setup_persistence_structure (env : SetupEnv) (fs : FS) : SetupResult :=
  if env.mountOk = false then
    { ok := false, fs := fs, conf := none, actions := [.mount, .umount] }
  else
    match env.mkdirFailAfter with
    | some k =>
        let made := setupDirectories.take k
        { ok := false
          fs := made.foldl mkdirParents fs
          conf := none
          actions := .mount :: (made.map FsAction.mkdir ++ [.umount]) }
    | none =>
        let fs1 := setupDirectories.foldl mkdirParents fs
        if env.writeOk = false then
          { ok := false
            fs := fsInsert fs1 "persistence.conf"
            conf := none
            actions := .mount ::
              (setupDirectories.map FsAction.mkdir ++ [.writeConf, .umount]) }
        else
          let fs2 := fsInsert fs1 "persistence.conf"
          if env.syncOk = false then
            { ok := false
              fs := fs2
              conf := some persistenceConfLines
              actions := .mount ::
                (setupDirectories.map FsAction.mkdir ++ [.writeConf, .syncFs, .umount]) }
          else
            { ok := true
              fs := fs2
              conf := some persistenceConfLines
              actions := .mount ::
                (setupDirectories.map FsAction.mkdir ++ [.writeConf, .syncFs, .umount]) }

/-- The items `verify_persistence` requires (persistence.py line 110). -/
def requiredItems : List String := ["upper", "work", "persistence.conf"]

/-- `PersistenceBuilder.verify_persistence` (persistence.py lines 98-127):
mount (a failure is caught and yields `False`), then check that each of
`upper`, `work`, `persistence.conf` exists under the mount point, returning
`False` on the first absent one, else `True`. Total (never raises): every
internal error is caught. -/
def verify_persistence (mountOk : Bool) (fs : FS) : Bool :=
  if mountOk = false then false
  else requiredItems.all fun item => fs.contains item

/-- A line of `persistence.conf` read as a union entry: `"<path> union"`
yields `some "<path>"`, anything else `none`. -/
def unionEntry (line : String) : Option String :=
  if (" union".data <:+ line.data) then
    some (String.mk (line.data.take (line.data.length - 6)))
  else
    none

/-- The paths declared `union` in a manifest, in order. -/
def unionPaths (lines : List String) : List String := lines.filterMap unionEntry

/-! ## Helper lemmas about the filesystem model -/

theorem mem_of_fsContains {fs : FS} {e : String} (h : fs.contains e = true) : e ∈ fs := by
  simpa using h

theorem mem_fsInsert_self (fs : FS) (e : String) : e ∈ fsInsert fs e := by
  unfold fsInsert
  by_cases h : fs.contains e = true
  · rw [if_pos h]
    exact mem_of_fsContains h
  · rw [if_neg h]
    simp

theorem mem_fsInsert_of_mem {fs : FS} {e : String} (d : String) (h : e ∈ fs) :
    e ∈ fsInsert fs d := by
  unfold fsInsert
  split <;> simp [h]

theorem mem_foldl_fsInsert_of_mem (l : List String) {fs : FS} {e : String} (h : e ∈ fs) :
    e ∈ l.foldl fsInsert fs := by
  induction l generalizing fs with
  | nil => exact h
  | cons a t ih => exact ih (mem_fsInsert_of_mem a h)

theorem mem_mkdirParents_of_mem {fs : FS} {e : String} (d : String) (h : e ∈ fs) :
    e ∈ mkdirParents fs d :=
  mem_foldl_fsInsert_of_mem (pathAncestors d) h

theorem mem_foldl_mkdirParents_of_mem (l : List String) {fs : FS} {e : String} (h : e ∈ fs) :
    e ∈ l.foldl mkdirParents fs := by
  induction l generalizing fs with
  | nil => exact h
  | cons a t ih => exact ih (mem_mkdirParents_of_mem a h)

theorem mem_mkdirParents_self_flat (fs : FS) (d : String)
    (hd : pathAncestors d = [d]) : d ∈ mkdirParents fs d := by
  unfold mkdirParents
  rw [hd]
  exact mem_fsInsert_self fs d

theorem mem_foldl_mkdirParents_of_flat (l : List String) (d : String)
    (hd : pathAncestors d = [d]) (hmem : d ∈ l) (fs : FS) :
    d ∈ l.foldl mkdirParents fs := by
  induction l generalizing fs with
  | nil => cases hmem
  | cons a t ih =>
    rw [List.foldl_cons]
    rcases List.mem_cons.mp hmem with heq | ht
    · subst heq
      exact mem_foldl_mkdirParents_of_mem t (mem_mkdirParents_self_flat fs d hd)
    · exact ih ht _

theorem getLast?_builderTrace (xs ys : List FsAction) (hy : ys ≠ []) :
    (FsAction.mount :: (xs ++ ys)).getLast? = ys.getLast? := by
  rw [show FsAction.mount :: (xs ++ ys) = (FsAction.mount :: xs) ++ ys from rfl]
  exact List.getLast?_append_of_ne_nil _ hy

/-! ## Flash orchestrator (core.py, `Flasher`)

External subprocess invocations are recorded as a command trace; each
fallible invocation's success is an environment flag. `run_command` with
`check=True` raises `CalledProcessError` on a non-zero exit (utils.py lines
8-23), modelled as an `Except.error`; `check=False` invocations and
invocations inside `try/except` blocks never abort the run. -/

/-- External commands the orchestrator runs, in source order. -/
inductive Cmd
  | testBlockDevice                    -- `test -b` in PartitionManager ctor
  | mountListing                       -- `mount` listing in unmount_all
  | wipefs                             -- wipefs in wipe_device
  | ddZeroHead                         -- dd of the first MiB in wipe_device
  | blockdevSizeWipe                   -- blockdev --getsize64 inside wipe_device
  | ddZeroTail                         -- dd of the last MiB in wipe_device
  | lsblkDevInfo                       -- lsblk in get_device_info
  | blockdevTotal                      -- blockdev --getsize64 in create_partition_table
  | partedMklabel                      -- parted mklabel gpt
  | partedMkpartBoot (endMb : Int)     -- parted mkpart primary fat32 1MiB..endMb
  | partedSetBoot                      -- parted set 1 boot on
  | partedMkpartPersist (startMb : Int) -- parted mkpart primary ext4 startMb..100%
  | syncDisk                           -- run_command(['sync'])
  | partprobe                          -- partprobe (check=False)
  | mkfsVfat                           -- mkfs.vfat -F 32
  | mkfsExt4                           -- mkfs.ext4 -F
  | ddImage                            -- dd of the image
  | builderMount                       -- mount by the persistence builder
  | builderUmount                      -- umount by the persistence builder
  | lsblkPartInfo                      -- lsblk in get_partition_info (check=False)
  | umountWholeDevice                  -- umount in _flash_simple on Linux
  | diskutilUnmount                    -- diskutil unmountDisk on Darwin
deriving DecidableEq

/-- Errors the flash methods can raise. -/
inductive FlashError
  | imageNotFound          -- FileNotFoundError for the source image
  | deviceNotFound         -- FileNotFoundError for the target device
  | invalidDevice          -- ValueError from PartitionManager construction
  | commandFailed          -- CalledProcessError from a check=True run_command
  | ddFailed               -- CalledProcessError from the dd subprocess.run
  | persistenceSetupFailed -- RuntimeError after setup_persistence_structure is False
deriving DecidableEq

/-- Environment of one `_flash_with_persistence` run. -/
structure PersistEnv where
  image_size : Nat            -- os.path.getsize of the image
  total_size_bytes : Int      -- what blockdev --getsize64 reports
  persistence_size_mb : Int   -- caller-supplied persistence size (-1 sentinel)
  isBlockDevice : Bool        -- result of the `test -b` probe
  blockdevOk : Bool           -- blockdev in create_partition_table succeeds
  partedOk : Bool             -- the four parted invocations succeed
  syncOk : Bool               -- the run_command(['sync']) invocations succeed
  formatOk : Bool             -- mkfs.vfat and mkfs.ext4 succeed
  ddOk : Bool                 -- the dd image copy succeeds
  setupEnv : SetupEnv         -- environment of setup_persistence_structure
  partitionFs : FS            -- content of partition 2 when setup mounts it
  verifyMountOk : Bool        -- the mount inside verify_persistence succeeds

/-- `Flasher._flash_with_persistence` (core.py lines 246-335): wipe and
partition the device, format, dd the image onto partition 1, run the
persistence builder on partition 2 (a `False` return raises RuntimeError),
then run verification (a `False` result only logs a warning), final sync and
best-effort partition-info queries. Returns the command trace and either the
raised error or, on completion, the verification result. Best-effort steps
(unmount_all, wipe_device, get_device_info, partprobe, get_partition_info)
are traced on their success path; their internal failures are caught by the
source and cannot abort the run. -/
def flash_with_persistence (env : PersistEnv) : List Cmd × Except FlashError Bool :=
  if env.isBlockDevice = false then
    ([.testBlockDevice], .error .invalidDevice)
  else
    let prep : List Cmd :=
      [.testBlockDevice, .mountListing, .wipefs, .ddZeroHead, .blockdevSizeWipe,
       .ddZeroTail, .lsblkDevInfo]
    let scheme : PartitionScheme :=
      ⟨flashBootSizeMb env.image_size, env.persistence_size_mb⟩
    let c1 := prep ++ [.blockdevTotal]
    if env.blockdevOk = false then (c1, .error .commandFailed)
    else
      let sizes := scheme.calculate_sizes env.total_size_bytes
      -- boot_end_mb = 1 + boot_size // (1024*1024), Python floor division
      let bootEndMb : Int := 1 + Int.fdiv sizes.1 (1024 * 1024)
      let c2 := c1 ++
        [.partedMklabel, .partedMkpartBoot bootEndMb, .partedSetBoot,
         .partedMkpartPersist bootEndMb]
      if env.partedOk = false then (c2, .error .commandFailed)
      else
        let c3 := c2 ++ [.syncDisk]
        if env.syncOk = false then (c3, .error .commandFailed)
        else
          let c4 := c3 ++ [.partprobe]
          let c5 := c4 ++ [.mkfsVfat, .mkfsExt4]
          if env.formatOk = false then (c5, .error .commandFailed)
          else
            let c6 := c5 ++ [.syncDisk]
            let c7 := c6 ++ [.ddImage]
            if env.ddOk = false then (c7, .error .ddFailed)
            else
              let c8 := c7 ++ [.syncDisk]
              let setupRes := setup_persistence_structure env.setupEnv env.partitionFs
              let c9 := c8 ++ [.builderMount, .builderUmount]
              if setupRes.ok = false then (c9, .error .persistenceSetupFailed)
              else
                let verified := verify_persistence env.verifyMountOk setupRes.fs
                let c10 := c9 ++ [.builderMount, .builderUmount]
                let c11 := c10 ++ [.syncDisk, .lsblkPartInfo, .lsblkPartInfo]
                (c11, .ok verified)

/-- The three platform families `_flash_simple` distinguishes. -/
inductive OSKind
  | linux
  | darwin
  | other
deriving DecidableEq

/-- `Flasher._flash_simple` (core.py lines 208-244): best-effort unmount
(platform-specific), dd the whole image to the device (fatal on failure),
sync on Linux only. -/
def flash_simple (osk : OSKind) (ddOk : Bool) : List Cmd × Except FlashError Bool :=
  let unmountCmds : List Cmd :=
    match osk with
    | .linux => [.umountWholeDevice]
    | .darwin => [.diskutilUnmount]
    | .other => []
  let c := unmountCmds ++ [.ddImage]
  if ddOk = false then (c, .error .ddFailed)
  else
    match osk with
    | .linux => (c ++ [.syncDisk], .ok true)
    | _ => (c, .ok true)

/-- Environment of one `Flasher.flash` invocation. -/
structure FlashEnv where
  imageExists : Bool          -- self.image_path.exists()
  deviceExists : Bool         -- os.path.exists(self.device_path)
  persistence_enabled : Bool
  osk : OSKind
  simpleDdOk : Bool
  penv : PersistEnv

/-- `Flasher.flash` (core.py lines 188-206): validate that the source image
and the target device exist (raising FileNotFoundError before anything
else), then dispatch on the persistence flag. -/
def flash (env : FlashEnv) : List Cmd × Except FlashError Bool :=
  if env.imageExists = false then ([], .error .imageNotFound)
  else if env.deviceExists = false then ([], .error .deviceNotFound)
  else if env.persistence_enabled then flash_with_persistence env.penv
  else flash_simple env.osk env.simpleDdOk

end USBFreedom

namespace USBFreedom

/-! ## Theorems for claims C1-C4 -/

/-- C1: for every `total_size_bytes`, `calculate_sizes` returns
`boot_bytes = boot_size_mb * 2^20`; in the sentinel case `persistence_size_mb = -1`
it returns `persistence_bytes = total_size_bytes - boot_bytes - 100*2^20`, and
otherwise `persistence_bytes = persistence_size_mb * 2^20` independently of
`total_size_bytes`. The embedding is a pure function, hence deterministic. -/
theorem calculate_sizes_spec (s : PartitionScheme) (total_size_bytes : Int) :
    (s.calculate_sizes total_size_bytes).1 = s.boot_size_mb * 2 ^ 20 ∧
    (s.persistence_size_mb = -1 →
      (s.calculate_sizes total_size_bytes).2 =
        total_size_bytes - s.boot_size_mb * 2 ^ 20 - 100 * 2 ^ 20) ∧
    (s.persistence_size_mb ≠ -1 →
      (s.calculate_sizes total_size_bytes).2 = s.persistence_size_mb * 2 ^ 20) := by
  refine ⟨?_, fun h => ?_, fun h => ?_⟩
  · unfold PartitionScheme.calculate_sizes
    by_cases h : s.persistence_size_mb = -1
    · simp [h]
      ring
    · simp [h]
      ring
  · simp [PartitionScheme.calculate_sizes, h]
    ring
  · simp [PartitionScheme.calculate_sizes, h]
    ring

/-- Witness for C1 at a concrete scheme and size (8 GiB device, 700 MB boot,
sentinel persistence). -/
theorem calculate_sizes_spec_witness :
    (PartitionScheme.mk 700 (-1)).calculate_sizes (8 * 2 ^ 30) =
      (700 * 2 ^ 20, 8 * 2 ^ 30 - 700 * 2 ^ 20 - 100 * 2 ^ 20) := by
  have h := calculate_sizes_spec (PartitionScheme.mk 700 (-1)) (8 * 2 ^ 30)
  have h2 := h.2.1 rfl
  exact Prod.ext h.1 h2

/-- C2: the claim states `calculate_sizes` never returns `persistence_bytes < 0`
for well-formed inputs; the code has no such guard. At `boot_size_mb = 700`,
`persistence_size_mb = -1` (well-formed) and `total_size_bytes = 100 * 2^20`
(device too small) the code returns `persistence_bytes = -700 * 2^20 < 0`. -/
theorem calculate_sizes_negative_on_small_device :
    ((PartitionScheme.mk 700 (-1)).calculate_sizes (100 * 2 ^ 20)).2 = -(700 * 2 ^ 20) ∧
    ((PartitionScheme.mk 700 (-1)).calculate_sizes (100 * 2 ^ 20)).2 < 0 := by
  norm_num [PartitionScheme.calculate_sizes]

/-- C3, counterexample: the claim says the orchestrator computes
`boot_size_mb = ceil(image_size_mb * 1.2) + 100`, but the code truncates
(`int(...)`), not ceils. At `image_size = 2^20` (a 1 MB image) the code yields
`101` while the ceiling formula yields `102`. -/
theorem flashBootSizeMb_not_ceil :
    flashBootSizeMb (2 ^ 20) = 101 ∧
    ⌈((2 ^ 20 : ℚ) / (1024 * 1024)) * (6 / 5)⌉ + 100 = 102 ∧
    ¬ (flashBootSizeMb (2 ^ 20) =
        ⌈((2 ^ 20 : ℚ) / (1024 * 1024)) * (6 / 5)⌉ + 100) := by
  have hfl : flashBootSizeMb (2 ^ 20) = 101 := by norm_num [flashBootSizeMb]
  have hc : ⌈((2 ^ 20 : ℚ) / (1024 * 1024)) * (6 / 5)⌉ = (2 : ℤ) := by
    have hv : ((2 ^ 20 : ℚ) / (1024 * 1024)) * (6 / 5) = 6 / 5 := by norm_num
    rw [hv, Int.ceil_eq_iff]
    norm_num
  refine ⟨hfl, by rw [hc]; norm_num, ?_⟩
  rw [hfl, hc]
  norm_num

/-- C3, amended: the orchestrator computes
`boot_size_mb = floor(image_size_mb * 1.2) + 100` (truncation, not ceiling),
equivalently `6 * image_size / (5 * 2^20) + 100` in integer division; in
particular a 500 MB image yields `700`. -/
theorem flashBootSizeMb_eq_floor :
    (∀ image_size : ℕ,
        flashBootSizeMb image_size = ((6 * image_size) / (5 * 1048576) : ℕ) + 100) ∧
    flashBootSizeMb (500 * 2 ^ 20) = 700 := by
  have key : ∀ image_size : ℕ,
      flashBootSizeMb image_size = ((6 * image_size) / (5 * 1048576) : ℕ) + 100 := by
    intro n
    unfold flashBootSizeMb
    have h : ((n : ℚ) / (1024 * 1024)) * (6 / 5) =
        ((6 * n : ℕ) : ℚ) / ((5 * 1048576 : ℕ) : ℚ) := by
      push_cast
      ring
    rw [h, Rat.floor_natCast_div_natCast, Int.natCast_div]
  refine ⟨key, ?_⟩
  rw [key]
  norm_num

/-- C4: `_get_partition_path` appends `p` + number when the device path
contains `nvme` or `mmcblk`, and the bare number otherwise; concretely
`/dev/sdb` + 1 → `/dev/sdb1`, `/dev/nvme0n1` + 2 → `/dev/nvme0n1p2`,
`/dev/mmcblk0` + 1 → `/dev/mmcblk0p1`. -/
theorem get_partition_path_spec :
    (∀ (device_path : String) (partition_num : ℕ),
      get_partition_path device_path partition_num =
        if "nvme".data <:+: device_path.data ∨ "mmcblk".data <:+: device_path.data then
          device_path ++ "p" ++ toString partition_num
        else
          device_path ++ toString partition_num) ∧
    get_partition_path "/dev/sdb" 1 = "/dev/sdb1" ∧
    get_partition_path "/dev/nvme0n1" 2 = "/dev/nvme0n1p2" ∧
    get_partition_path "/dev/mmcblk0" 1 = "/dev/mmcblk0p1" := by
  refine ⟨?_, by decide, by decide, by decide⟩
  intro device_path partition_num
  unfold get_partition_path strContainsSub
  by_cases h1 : "nvme".data <:+: device_path.data <;>
    by_cases h2 : "mmcblk".data <:+: device_path.data <;>
      simp [h1, h2]

/-! ## Theorems for claims C6, C7, C8, C10 -/

/-- C6: `verify_persistence` returns `true` iff the mount succeeds and all
three of `upper`, `work`, `persistence.conf` exist at the top level of the
mounted partition; it returns `false` if the mount fails or any item is
absent. It is a total boolean function: every internal error of the source
is caught, so it never raises. -/
theorem verify_persistence_iff (mountOk : Bool) (fs : FS) :
    verify_persistence mountOk fs = true ↔
      (mountOk = true ∧ "upper" ∈ fs ∧ "work" ∈ fs ∧ "persistence.conf" ∈ fs) := by
  cases mountOk <;>
    simp [verify_persistence, requiredItems, List.all_eq_true, and_assoc]

/-- C7: on every input, `setup_persistence_structure` performs the mount
first and the unmount last on its action trace (the mount point is unmounted
on every exit path before the method returns), and whenever any internal
step fails (mount, a mkdir, the conf write, or the sync) the error is
converted into a `false` return instead of propagating; the model is a total
function into a boolean-carrying result, reflecting that the source catches
every exception. -/
theorem setup_persistence_structure_cleanup (env : SetupEnv) (fs : FS) :
    (setup_persistence_structure env fs).actions.head? = some .mount ∧
    (setup_persistence_structure env fs).actions.getLast? = some .umount ∧
    (¬ (env.mountOk = true ∧ env.mkdirFailAfter = none ∧
          env.writeOk = true ∧ env.syncOk = true) →
      (setup_persistence_structure env fs).ok = false) := by
  obtain ⟨mountOk, mkdirFailAfter, writeOk, syncOk⟩ := env
  cases mountOk <;> cases mkdirFailAfter <;> cases writeOk <;> cases syncOk <;>
    simp [setup_persistence_structure] <;>
      rw [getLast?_builderTrace _ _ (by simp)] <;> rfl

/-- Witness for C7 at a concrete failing environment (mount fails):
the trace is mount-then-umount and the return value is `false`. -/
theorem setup_persistence_structure_cleanup_witness :
    (setup_persistence_structure ⟨false, none, true, true⟩ []).actions.head? =
        some .mount ∧
    (setup_persistence_structure ⟨false, none, true, true⟩ []).actions.getLast? =
        some .umount ∧
    (setup_persistence_structure ⟨false, none, true, true⟩ []).ok = false := by
  have h := setup_persistence_structure_cleanup ⟨false, none, true, true⟩ []
  exact ⟨h.1, h.2.1, h.2.2 (by simp)⟩

/-- C8: whenever `setup_persistence_structure` succeeds, the manifest it
wrote has exactly one `<path> union` entry for each of `/home`, `/var/log`,
`/etc`, `/root`, `/usr/local` and a union entry for no other path; in
particular none for `/opt`. -/
theorem setup_persistence_structure_conf (env : SetupEnv) (fs : FS)
    (h : (setup_persistence_structure env fs).ok = true) :
    (setup_persistence_structure env fs).conf = some persistenceConfLines ∧
    unionPaths persistenceConfLines =
      ["/home", "/var/log", "/etc", "/root", "/usr/local"] ∧
    "/opt" ∉ unionPaths persistenceConfLines := by
  refine ⟨?_, by decide, by decide⟩
  obtain ⟨mountOk, mkdirFailAfter, writeOk, syncOk⟩ := env
  cases mountOk <;> cases mkdirFailAfter <;> cases writeOk <;> cases syncOk <;>
    first
      | (refine absurd h ?_; simp [setup_persistence_structure]; done)
      | rfl

/-- Witness for C8: a fully successful run on an empty partition. -/
theorem setup_persistence_structure_conf_witness :
    (setup_persistence_structure ⟨true, none, true, true⟩ []).conf =
        some persistenceConfLines ∧
    unionPaths persistenceConfLines =
      ["/home", "/var/log", "/etc", "/root", "/usr/local"] ∧
    "/opt" ∉ unionPaths persistenceConfLines :=
  setup_persistence_structure_conf ⟨true, none, true, true⟩ [] (by rfl)

/-- C10: round trip — whenever `setup_persistence_structure` succeeds, an
immediately following `verify_persistence` on the same partition (mount
succeeding, filesystem unchanged) returns `true`: setup created `upper`,
`work` and `persistence.conf`, exactly the three items verify checks. -/
theorem setup_then_verify (env : SetupEnv) (fs : FS)
    (h : (setup_persistence_structure env fs).ok = true) :
    verify_persistence true (setup_persistence_structure env fs).fs = true := by
  obtain ⟨mountOk, mkdirFailAfter, writeOk, syncOk⟩ := env
  have hbranch :
      (setup_persistence_structure ⟨mountOk, mkdirFailAfter, writeOk, syncOk⟩ fs).fs =
        fsInsert (setupDirectories.foldl mkdirParents fs) "persistence.conf" := by
    cases mountOk <;> cases mkdirFailAfter <;> cases writeOk <;> cases syncOk <;>
      first
        | (refine absurd h ?_; simp [setup_persistence_structure]; done)
        | rfl
  rw [hbranch]
  have hupper : "upper" ∈ setupDirectories.foldl mkdirParents fs :=
    mem_foldl_mkdirParents_of_flat setupDirectories "upper" (by decide) (by decide) fs
  have hwork : "work" ∈ setupDirectories.foldl mkdirParents fs :=
    mem_foldl_mkdirParents_of_flat setupDirectories "work" (by decide) (by decide) fs
  rw [verify_persistence_iff]
  exact ⟨rfl,
    mem_fsInsert_of_mem _ hupper,
    mem_fsInsert_of_mem _ hwork,
    mem_fsInsert_self _ _⟩

/-- Witness for C10: a fully successful setup on an empty partition is
verified successfully. -/
theorem setup_then_verify_witness :
    verify_persistence true
      (setup_persistence_structure ⟨true, none, true, true⟩ []).fs = true :=
  setup_then_verify ⟨true, none, true, true⟩ [] (by rfl)

/-! ## Theorems for claims C5 and C9 -/

/-- C5: in a persistence-flash run whose partitioning, formatting and
flashing succeeded, a `false` return from `setup_persistence_structure`
makes the orchestrator raise the persistence-specific error and abort,
whereas a `false` result from `verify_persistence` is only a warning: the
run completes with `.ok` carrying the (possibly `false`) verification
result. -/
theorem flash_with_persistence_setup_fatal (env : PersistEnv)
    (hblk : env.isBlockDevice = true) (hbd : env.blockdevOk = true)
    (hparted : env.partedOk = true) (hsync : env.syncOk = true)
    (hfmt : env.formatOk = true) (hdd : env.ddOk = true) :
    ((setup_persistence_structure env.setupEnv env.partitionFs).ok = false →
        (flash_with_persistence env).2 =
          Except.error FlashError.persistenceSetupFailed) ∧
    ((setup_persistence_structure env.setupEnv env.partitionFs).ok = true →
        (flash_with_persistence env).2 =
          Except.ok (verify_persistence env.verifyMountOk
            (setup_persistence_structure env.setupEnv env.partitionFs).fs)) := by
  constructor <;> intro h <;>
    simp [flash_with_persistence, hblk, hbd, hparted, hsync, hfmt, hdd, h]

/-- Witness for C5: with every earlier step succeeding but the builder's
mount failing (so setup returns `false`), the run aborts with the
persistence-specific error. -/
theorem flash_with_persistence_setup_fatal_witness :
    (flash_with_persistence
      { image_size := 500 * 1048576
        total_size_bytes := 8 * 2 ^ 30
        persistence_size_mb := -1
        isBlockDevice := true
        blockdevOk := true
        partedOk := true
        syncOk := true
        formatOk := true
        ddOk := true
        setupEnv := ⟨false, none, true, true⟩
        partitionFs := []
        verifyMountOk := true }).2 =
      Except.error FlashError.persistenceSetupFailed :=
  (flash_with_persistence_setup_fatal _ rfl rfl rfl rfl rfl rfl).1 rfl

/-- C9: whenever the source image or the target device does not exist,
`flash` raises the corresponding FileNotFoundError and its command trace is
empty — no external tool at all (in particular no copy, wipe, partition or
format tool) is invoked. -/
theorem flash_validates_before_any_command (env : FlashEnv)
    (h : env.imageExists = false ∨ env.deviceExists = false) :
    (flash env).1 = [] ∧
    ((flash env).2 = Except.error FlashError.imageNotFound ∨
      (flash env).2 = Except.error FlashError.deviceNotFound) := by
  rcases h with h | h
  · simp [flash, h]
  · rcases hi : env.imageExists with _ | _
    · simp [flash, hi]
    · simp [flash, hi, h]

/-- Witness for C9: a missing source image on an otherwise healthy
persistence-mode invocation yields the image error with an empty trace. -/
theorem flash_validates_before_any_command_witness :
    (flash
      { imageExists := false
        deviceExists := true
        persistence_enabled := true
        osk := OSKind.linux
        simpleDdOk := true
        penv :=
          { image_size := 500 * 1048576
            total_size_bytes := 8 * 2 ^ 30
            persistence_size_mb := -1
            isBlockDevice := true
            blockdevOk := true
            partedOk := true
            syncOk := true
            formatOk := true
            ddOk := true
            setupEnv := ⟨true, none, true, true⟩
            partitionFs := []
            verifyMountOk := true } }).1 = [] ∧
    ((flash
      { imageExists := false
        deviceExists := true
        persistence_enabled := true
        osk := OSKind.linux
        simpleDdOk := true
        penv :=
          { image_size := 500 * 1048576
            total_size_bytes := 8 * 2 ^ 30
            persistence_size_mb := -1
            isBlockDevice := true
            blockdevOk := true
            partedOk := true
            syncOk := true
            formatOk := true
            ddOk := true
            setupEnv := ⟨true, none, true, true⟩
            partitionFs := []
            verifyMountOk := true } }).2 = Except.error FlashError.imageNotFound ∨
      (flash
      { imageExists := false
        deviceExists := true
        persistence_enabled := true
        osk := OSKind.linux
        simpleDdOk := true
        penv :=
          { image_size := 500 * 1048576
            total_size_bytes := 8 * 2 ^ 30
            persistence_size_mb := -1
            isBlockDevice := true
            blockdevOk := true
            partedOk := true
            syncOk := true
            formatOk := true
            ddOk := true
            setupEnv := ⟨true, none, true, true⟩
            partitionFs := []
            verifyMountOk := true } }).2 = Except.error FlashError.deviceNotFound) :=
  flash_validates_before_any_command _ (Or.inl rfl)

end USBFreedom
